import Mathlib

/-!
Verification development for the Bird-Identification-App repository.

The definitions below are a shallow embedding of the two code regions the
claims concern:

* the usage ledger of `server/storage.ts` (class `MemStorage`): per-user
  daily identification counters with lazy day-rollover reset, creation of
  identification records, and plan-capped history queries;
* the response normalizer inside `identifyBirdWithGemini`
  (`server/gemini.ts`, shipped in `soundIdentification.ts`'s bundle):
  defaulting, confidence clamping and error handling of the parsed AI
  response, together with the static `subscriptionLimitsMap` and the zod
  schemas of `shared/schema.ts`.

JavaScript `Date` values are modelled by a pair of a calendar day and a
millisecond instant: `toDateString()` comparison becomes equality of the
`day` field and `getTime()` becomes the `ms` field.  JavaScript numbers
that the code only ever treats as integers are `Int`; the AI-supplied
confidence, which may be fractional, is `Rat`.  Nullable/absent fields are
`Option`; JavaScript truthiness tests (`if (x)`, `x || d`) are modelled by
explicit helper functions mirroring each use site.
-/

namespace BirdApp

/-- A JavaScript `Date`: `day` stands for the calendar date (the value
compared by `toDateString()`), `ms` for the epoch instant (`getTime()`). -/
structure JsDate where
  day : Int
  ms : Int
deriving DecidableEq

/-- JavaScript `x || d` for a possibly-absent string: absent and the empty
string are falsy. -/
def jsOrString (v : Option String) (d : String) : String :=
  match v with
  | none => d
  | some s => if s = "" then d else s

/-- JavaScript truthiness of a possibly-absent string (`!x` is true exactly
when this is false). -/
def jsStrTruthy (v : Option String) : Bool :=
  match v with
  | none => false
  | some s => s ≠ ""

/-- JavaScript `x || 0` for a possibly-null integer counter
(`user.dailyIdentificationsCount || 0`). -/
def jsOrZero (v : Option Int) : Int :=
  match v with
  | none => 0
  | some n => n

/-- JavaScript truthiness of a possibly-null numeric id
(`if (insertIdentification.userId)`): `null`/`undefined` and `0` are falsy. -/
def jsIdTruthy (v : Option Int) : Bool :=
  match v with
  | none => false
  | some n => n ≠ 0

/-- JavaScript `x || null` for a possibly-null numeric id
(`insertIdentification.userId || null`): `0` collapses to `null`. -/
def jsIdOrNull (v : Option Int) : Option Int :=
  match v with
  | none => none
  | some n => if n = 0 then none else some n

/-- Subscription plans (`shared/schema.ts`, `subscriptionPlans`). -/
inductive SubscriptionPlan where
  | free
  | premium
deriving DecidableEq

/-- A plan limit that is either a finite number or JavaScript `Infinity`
(`subscriptionLimitsMap` stores `Infinity` for unlimited quotas). -/
inductive PlanLimit where
  | fin (n : Int)
  | inf
deriving DecidableEq

/-- JavaScript `current < limit` where `limit` may be `Infinity`. -/
def PlanLimit.ltNum (current : Int) : PlanLimit → Bool
  | .fin n => current < n
  | .inf => true

/-- `limit === Infinity ? -1 : limit`: the wire serialization of a plan
limit used by `checkDailyIdentificationLimit`. -/
def PlanLimit.serialize : PlanLimit → Int
  | .fin n => n
  | .inf => -1

/-- The per-plan static limits of `shared/schema.ts`
(`subscriptionLimitsMap`), restricted to the numeric identification
quotas the claims concern. -/
def subscriptionLimitsPerDay : SubscriptionPlan → PlanLimit
  | .free => .fin 5
  | .premium => .inf

/-- `subscriptionLimitsMap[plan].identifications.history`. -/
def subscriptionLimitsHistory : SubscriptionPlan → Int
  | .free => 3
  | .premium => 30

/-- A user row (`shared/schema.ts`, table `users`), restricted to the
fields the storage operations read or write. -/
structure User where
  id : Int
  username : String
  subscriptionPlan : SubscriptionPlan
  dailyIdentificationsCount : Option Int
  lastIdentificationDate : Option JsDate
deriving DecidableEq

/-- A stored identification record (`shared/schema.ts`,
table `bird_identifications`); the `jsonb` result payload is kept
abstract as a string. -/
structure BirdIdentification where
  id : Int
  userId : Option Int
  imageUrl : String
  result : String
  identifiedAt : JsDate
deriving DecidableEq

/-- The insert shape accepted by `createIdentification`
(`insertBirdIdentificationSchema`). -/
structure InsertBirdIdentification where
  userId : Option Int
  imageUrl : String
  result : String
deriving DecidableEq

/-- Result of `checkDailyIdentificationLimit` (`DailyLimitCheckResult`). -/
structure DailyLimitCheckResult where
  withinLimit : Bool
  current : Int
  limit : Int
deriving DecidableEq

/-- A JavaScript `Map` keyed by integers, as an insertion-ordered
association list. -/
abbrev JsMap (α : Type) := List (Int × α)

/-- `Map.get(k)`. -/
def mapGet {α : Type} (m : JsMap α) (k : Int) : Option α :=
  match m with
  | [] => none
  | (k', v) :: rest => if k' = k then some v else mapGet rest k

/-- `Map.set(k, v)`: replaces in place when the key exists, else appends
(matching JavaScript `Map` insertion-order semantics). -/
def mapSet {α : Type} (m : JsMap α) (k : Int) (v : α) : JsMap α :=
  match m with
  | [] => [(k, v)]
  | (k', v') :: rest =>
      if k' = k then (k, v) :: rest else (k', v') :: mapSet rest k v

/-- `Array.from(map.values())`. -/
def mapValues {α : Type} (m : JsMap α) : List α :=
  m.map (fun e => e.2)

/-- The in-memory storage state of `MemStorage`, restricted to the fields
the claims exercise. -/
structure MemStorage where
  users : JsMap User
  identifications : JsMap BirdIdentification
  identificationIdCounter : Int
deriving DecidableEq

/-- The `isNewDay` test shared by `checkDailyIdentificationLimit` and
`incrementDailyIdentificationCount`:
`lastDate ? now.toDateString() !== lastDate.toDateString() : true`. -/
def isNewDay (now : JsDate) (lastDate : Option JsDate) : Bool :=
  match lastDate with
  | some d => now.day ≠ d.day
  | none => true

/-- `updateUser(userId, { dailyIdentificationsCount, lastIdentificationDate })`:
the only update shape the daily-limit operations use.  Throws (returns
`.error`) when the user does not exist. -/
def updateUserDaily (s : MemStorage) (userId : Int) (count : Int)
    (date : JsDate) : MemStorage × Except String User :=
  match mapGet s.users userId with
  | none => (s, .error ("User with id " ++ toString userId ++ " not found"))
  | some u =>
      let u' : User :=
        { u with dailyIdentificationsCount := some count,
                 lastIdentificationDate := some date }
      ({ s with users := mapSet s.users userId u' }, .ok u')

/-- `resetDailyIdentificationCount(userId)` at instant `now`. -/
def resetDailyIdentificationCount (now : JsDate) (s : MemStorage)
    (userId : Int) : MemStorage × Except String Unit :=
  let (s', r) := updateUserDaily s userId 0 now
  match r with
  | .ok _ => (s', .ok ())
  | .error e => (s', .error e)

/-- `checkDailyIdentificationLimit(userId)` at instant `now`. -/
def checkDailyIdentificationLimit (now : JsDate) (s : MemStorage)
    (userId : Int) : MemStorage × Except String DailyLimitCheckResult :=
  match mapGet s.users userId with
  | none => (s, .error ("User with id " ++ toString userId ++ " not found"))
  | some user =>
      if isNewDay now user.lastIdentificationDate then
        let (s', r) := resetDailyIdentificationCount now s userId
        match r with
        | .ok _ => (s', .ok { withinLimit := true, current := 0, limit := 5 })
        | .error e => (s', .error e)
      else
        let limit : PlanLimit :=
          if user.subscriptionPlan = .premium then .inf else .fin 5
        let current := jsOrZero user.dailyIdentificationsCount
        (s, .ok { withinLimit := limit.ltNum current, current := current,
                  limit := limit.serialize })

/-- `incrementDailyIdentificationCount(userId)` at instant `now`. -/
def incrementDailyIdentificationCount (now : JsDate) (s : MemStorage)
    (userId : Int) : MemStorage × Except String Int :=
  match mapGet s.users userId with
  | none => (s, .error ("User with id " ++ toString userId ++ " not found"))
  | some user =>
      let count : Int :=
        if isNewDay now user.lastIdentificationDate then 1
        else jsOrZero user.dailyIdentificationsCount + 1
      let (s', r) := updateUserDaily s userId count now
      match r with
      | .ok _ => (s', .ok count)
      | .error e => (s', .error e)

/-- `createIdentification(insertIdentification)` at instant `now`.  The id
counter advances before the conditional increment, so a thrown
`NotFound` from the increment still leaves the counter advanced while
the identifications map is untouched. -/
def createIdentification (now : JsDate) (s : MemStorage)
    (ins : InsertBirdIdentification) :
    MemStorage × Except String BirdIdentification :=
  let id := s.identificationIdCounter
  let s1 : MemStorage := { s with identificationIdCounter := id + 1 }
  let store : MemStorage → MemStorage × Except String BirdIdentification :=
    fun s2 =>
      let ident : BirdIdentification :=
        { id := id, userId := jsIdOrNull ins.userId,
          imageUrl := ins.imageUrl, result := ins.result,
          identifiedAt := now }
      ({ s2 with identifications := mapSet s2.identifications id ident },
       .ok ident)
  if jsIdTruthy ins.userId then
    match ins.userId with
    | none => store s1
    | some u =>
        let (s2, r) := incrementDailyIdentificationCount now s1 u
        match r with
        | .ok _ => store s2
        | .error e => (s2, .error e)
  else
    store s1

/-- Stable insertion (descending by `identifiedAt.getTime()`) implementing
the comparator `(a, b) => b.identifiedAt.getTime() - a.identifiedAt.getTime()`. -/
def insertByTimeDesc (x : BirdIdentification) :
    List BirdIdentification → List BirdIdentification
  | [] => [x]
  | y :: ys =>
      if y.identifiedAt.ms < x.identifiedAt.ms then x :: y :: ys
      else y :: insertByTimeDesc x ys

/-- Sort newest-first by `identifiedAt`. -/
def sortByTimeDesc (l : List BirdIdentification) : List BirdIdentification :=
  match l with
  | [] => []
  | x :: xs => insertByTimeDesc x (sortByTimeDesc xs)

/-- JavaScript `arr.slice(0, k)` for a possibly negative `k`. -/
def jsSlice {α : Type} (l : List α) (k : Int) : List α :=
  if k < 0 then l.take (max 0 (l.length + k)).toNat
  else l.take k.toNat

/-- `getRecentIdentifications(userId?, limit = 10)`. -/
def getRecentIdentifications (s : MemStorage) (userId : Option Int)
    (limitArg : Option Int) : List BirdIdentification :=
  let limit : Int := limitArg.getD 10
  let idents := mapValues s.identifications
  let filteredAndLimit : List BirdIdentification × Int :=
    match userId with
    | none => (idents, limit)
    | some u =>
        let filtered := idents.filter (fun i => i.userId = some u)
        match mapGet s.users u with
        | some user =>
            let historyLimit : Int :=
              if user.subscriptionPlan = .premium then 30 else 3
            (filtered, min limit historyLimit)
        | none => (filtered, limit)
  jsSlice (sortByTimeDesc filteredAndLimit.1) filteredAndLimit.2

/-! ### Result normalizer (`identifyBirdWithGemini`) -/

/-- JavaScript `Math.round`: round half toward positive infinity. -/
def jsRound (q : Rat) : Int :=
  Int.floor (q + 1 / 2)

/-- JavaScript `x || 0` on a possibly-absent numeric confidence
(`parsedResponse.mainBird.confidence || 0`). -/
def jsOrZeroQ (v : Option Rat) : Rat :=
  match v with
  | none => 0
  | some q => if q = 0 then 0 else q

/-- `Math.min(Math.max(1, Math.round(c || 0)), 100)`: the confidence
normalization applied to the primary bird and each similar bird. -/
def normConfidence (v : Option Rat) : Int :=
  min (max 1 (jsRound (jsOrZeroQ v))) 100

/-- JavaScript `features || ["No features available"]`: an absent (or
otherwise falsy) value takes the default, while any present array —
including the empty one, which is truthy — is kept. -/
def jsOrFeatures (v : Option (List String)) : List String :=
  match v with
  | none => ["No features available"]
  | some l => l

/-- Nested `physicalCharacteristics` group: the same shape before and
after normalization (the code copies it field by field). -/
structure PhysicalCharacteristics where
  size : Option String
  weight : Option String
  wingspan : Option String
  plumage : Option String
  bill : Option String
  legs : Option String
  eyeColor : Option String
deriving DecidableEq

/-- Nested `habitatAndRange` group. -/
structure HabitatAndRange where
  preferredHabitat : Option String
  geographicRange : Option String
  rangeMapUrl : Option String
deriving DecidableEq

/-- Nested `migrationPatterns` group as it appears in the parsed input:
`migratory` may be absent (the code applies `!!`). -/
structure ParsedMigrationPatterns where
  migratory : Option Bool
  migrationSeason : Option String
  migrationRoute : Option String
  winteringGrounds : Option String
  breedingGrounds : Option String
deriving DecidableEq

/-- Nested `migrationPatterns` group after normalization: `migratory` is
forced to a boolean by `!!`. -/
structure MigrationPatterns where
  migratory : Bool
  migrationSeason : Option String
  migrationRoute : Option String
  winteringGrounds : Option String
  breedingGrounds : Option String
deriving DecidableEq

/-- Nested `seasonalVariations` group. -/
structure SeasonalVariations where
  breedingPlumage : Option String
  winterPlumage : Option String
  juvenilePlumage : Option String
  seasonalBehavior : Option String
deriving DecidableEq

/-- Nested `sounds` group. -/
structure BirdSounds where
  calls : Option String
  songs : Option String
  audioUrl : Option String
deriving DecidableEq

/-- The `mainBird` object of the parsed (pre-normalization) AI response:
every field may be absent. -/
structure ParsedBird where
  name : Option String
  scientificName : Option String
  confidence : Option Rat
  description : Option String
  features : Option (List String)
  habitat : Option String
  sound : Option String
  physicalCharacteristics : Option PhysicalCharacteristics
  habitatAndRange : Option HabitatAndRange
  migrationPatterns : Option ParsedMigrationPatterns
  seasonalVariations : Option SeasonalVariations
  sounds : Option BirdSounds
deriving DecidableEq

/-- A `similarBirds` entry of the parsed response. -/
structure ParsedSimilarBird where
  name : Option String
  scientificName : Option String
  confidence : Option Rat
deriving DecidableEq

/-- The parsed (pre-normalization) AI response.  `error` is the truthiness
of the `error` field; `similarBirds = none` covers both an absent field
and a non-array value (`Array.isArray` fails on both). -/
structure ParsedResponse where
  error : Bool
  message : Option String
  mainBird : Option ParsedBird
  similarBirds : Option (List ParsedSimilarBird)
deriving DecidableEq

/-- A normalized primary bird (`birdSchema` of `shared/schema.ts`; the
normalizer always fills the scalar fields, and `features` is
`z.array(z.string())` with no lower bound on length). -/
structure Bird where
  name : String
  scientificName : String
  confidence : Int
  description : String
  features : List String
  habitat : String
  sound : String
  physicalCharacteristics : Option PhysicalCharacteristics
  habitatAndRange : Option HabitatAndRange
  migrationPatterns : Option MigrationPatterns
  seasonalVariations : Option SeasonalVariations
  sounds : Option BirdSounds
deriving DecidableEq

/-- A normalized similar bird (`similarBirdSchema`). -/
structure SimilarBird where
  name : String
  scientificName : String
  confidence : Int
deriving DecidableEq

/-- A normalized identification result (`identificationResultSchema`). -/
structure IdentificationResult where
  mainBird : Bird
  similarBirds : List SimilarBird
  originalImage : String
deriving DecidableEq

/-- The two distinguished failures the normalization step raises before
the enclosing `catch`: the explicit error flag
(`throw new Error(parsedResponse.message || "Failed to identify bird in image")`)
and the missing primary-bird name
(`throw new Error("The API response did not contain valid bird identification data")`).
These are the spec's `IdentificationFailed` and `InvalidResponseShape`. -/
inductive NormError where
  | identificationFailed (message : String)
  | invalidResponseShape (message : String)
deriving DecidableEq

/-- Normalization of the `mainBird` object (the `validatedResult.mainBird`
construction of `identifyBirdWithGemini`). -/
def buildBird (mb : ParsedBird) : Bird :=
  { name := jsOrString mb.name "Unknown Bird",
    scientificName := jsOrString mb.scientificName "Unknown Species",
    confidence := normConfidence mb.confidence,
    description := jsOrString mb.description "No description available",
    features := jsOrFeatures mb.features,
    habitat := jsOrString mb.habitat "Unknown habitat",
    sound := jsOrString mb.sound "Unknown sound",
    physicalCharacteristics := mb.physicalCharacteristics.map (fun pc =>
      { size := pc.size, weight := pc.weight, wingspan := pc.wingspan,
        plumage := pc.plumage, bill := pc.bill, legs := pc.legs,
        eyeColor := pc.eyeColor }),
    habitatAndRange := mb.habitatAndRange.map (fun hr =>
      { preferredHabitat := hr.preferredHabitat,
        geographicRange := hr.geographicRange,
        rangeMapUrl := hr.rangeMapUrl }),
    migrationPatterns := mb.migrationPatterns.map (fun mp =>
      { migratory := mp.migratory.getD false,
        migrationSeason := mp.migrationSeason,
        migrationRoute := mp.migrationRoute,
        winteringGrounds := mp.winteringGrounds,
        breedingGrounds := mp.breedingGrounds }),
    seasonalVariations := mb.seasonalVariations.map (fun sv =>
      { breedingPlumage := sv.breedingPlumage,
        winterPlumage := sv.winterPlumage,
        juvenilePlumage := sv.juvenilePlumage,
        seasonalBehavior := sv.seasonalBehavior }),
    sounds := mb.sounds.map (fun sn =>
      { calls := sn.calls, songs := sn.songs, audioUrl := sn.audioUrl }) }

/-- Normalization of one `similarBirds` entry. -/
def buildSimilarBird (b : ParsedSimilarBird) : SimilarBird :=
  { name := jsOrString b.name "Unknown Similar Bird",
    scientificName := jsOrString b.scientificName "Unknown Species",
    confidence := normConfidence b.confidence }

/-- The normalization step of `identifyBirdWithGemini` on an
already-parsed response, up to and excluding the enclosing
`catch (jsonError)` handler: the error-flag check, the primary-bird
presence check, the defaulted record construction, and the final zod
validation (which always succeeds on the well-typed record built here,
since `birdSchema` imposes no constraint the construction can violate). -/
def normalizeParsed (origImage : String) (p : ParsedResponse) :
    Except NormError IdentificationResult :=
  if p.error then
    .error (.identificationFailed
      (jsOrString p.message "Failed to identify bird in image"))
  else
    match p.mainBird with
    | none =>
        .error (.invalidResponseShape
          "The API response did not contain valid bird identification data")
    | some mb =>
        if jsStrTruthy mb.name then
          .ok { mainBird := buildBird mb,
                similarBirds :=
                  match p.similarBirds with
                  | some bs => bs.map buildSimilarBird
                  | none => [],
                originalImage := origImage }
        else
          .error (.invalidResponseShape
            "The API response did not contain valid bird identification data")

/-- The whole parsing section of `identifyBirdWithGemini` as observed by
its caller: the `catch (jsonError)` block replaces every failure raised
inside — including the two deliberate throws above — with the single
generic message `"Failed to parse identification result from Gemini API"`. -/
def identifyBirdNormalize (origImage : String) (p : ParsedResponse) :
    Except String IdentificationResult :=
  match normalizeParsed origImage p with
  | .ok r => .ok r
  | .error _ => .error "Failed to parse identification result from Gemini API"

/-! ### Supporting lemmas -/

theorem mapGet_mapSet_self {α : Type} (m : JsMap α) (k : Int) (v : α) :
    mapGet (mapSet m k v) k = some v := by
  induction m with
  | nil => simp [mapSet, mapGet]
  | cons e rest ih =>
      by_cases h : e.1 = k
      · simp [mapSet, mapGet, h]
      · simp [mapSet, mapGet, h, ih]

theorem length_insertByTimeDesc (x : BirdIdentification)
    (l : List BirdIdentification) :
    (insertByTimeDesc x l).length = l.length + 1 := by
  induction l with
  | nil => simp [insertByTimeDesc]
  | cons y ys ih =>
      by_cases h : y.identifiedAt.ms < x.identifiedAt.ms
      · simp [insertByTimeDesc, h]
      · simp [insertByTimeDesc, h, ih]

theorem length_sortByTimeDesc (l : List BirdIdentification) :
    (sortByTimeDesc l).length = l.length := by
  induction l with
  | nil => rfl
  | cons x xs ih => simp [sortByTimeDesc, length_insertByTimeDesc, ih]

theorem jsOrString_ne_empty (v : Option String) (d : String) (hd : d ≠ "") :
    jsOrString v d ≠ "" := by
  cases v with
  | none => simpa [jsOrString] using hd
  | some s =>
      by_cases h : s = "" <;> simp [jsOrString, h, hd]

theorem normConfidence_some (q : Rat) :
    normConfidence (some q) = min 100 (max 1 (jsRound q)) := by
  by_cases h : q = 0 <;>
    simp [normConfidence, jsOrZeroQ, h, min_comm]

theorem normConfidence_range (v : Option Rat) :
    1 ≤ normConfidence v ∧ normConfidence v ≤ 100 := by
  unfold normConfidence
  constructor
  · exact le_min (le_max_left 1 _) (by norm_num)
  · exact min_le_right _ _

theorem jsRound_intCast (n : Int) : jsRound (n : Rat) = n := by
  unfold jsRound
  rw [Int.floor_eq_iff]
  constructor <;> norm_num

theorem normConfidence_int_fixed (n : Int) (h1 : 1 ≤ n) (h2 : n ≤ 100) :
    normConfidence (some (n : Rat)) = n := by
  rw [normConfidence_some, jsRound_intCast]
  omega

/-- Inversion of a successful normalization: the input had a falsy error
flag and a truthy primary-bird name, and the output is exactly the
defaulted record built from the input. -/
theorem normalizeParsed_ok_inv (orig : String) (p : ParsedResponse)
    (r : IdentificationResult) (h : normalizeParsed orig p = .ok r) :
    p.error = false ∧
    ∃ mb, p.mainBird = some mb ∧ jsStrTruthy mb.name = true ∧
      r = { mainBird := buildBird mb,
            similarBirds :=
              match p.similarBirds with
              | some bs => bs.map buildSimilarBird
              | none => [],
            originalImage := orig } := by
  unfold normalizeParsed at h
  by_cases he : p.error
  · simp [he] at h
  · cases hmb : p.mainBird with
    | none => rw [hmb] at h; simp [he] at h
    | some mb =>
        rw [hmb] at h
        by_cases hn : jsStrTruthy mb.name
        · simp only [he, hn, if_true, if_false, Bool.false_eq_true,
            Except.ok.injEq] at h
          exact ⟨by simp [he], mb, rfl, hn, h.symm⟩
        · simp [he, hn] at h

/-! ### C1: day rollover makes check/increment behave as if the count
were 0 -/

/-- C1: for a user whose stored last-identification date is on a
different calendar day than `now` (or is null), `checkDailyLimit`
resets the stored counter to 0 (stamping the date) and reports
`current = 0`, `withinLimit = true`; and `incrementDailyCount` sets the
counter to 1, stamps the date, and returns 1. -/
theorem dailyLimit_newDay_behaves_as_zero
    (now : JsDate) (s : MemStorage) (uid : Int) (user : User)
    (hu : mapGet s.users uid = some user)
    (hnew : isNewDay now user.lastIdentificationDate = true) :
    (checkDailyIdentificationLimit now s uid).2 =
        .ok { withinLimit := true, current := 0, limit := 5 } ∧
    mapGet (checkDailyIdentificationLimit now s uid).1.users uid =
        some { user with dailyIdentificationsCount := some 0,
                         lastIdentificationDate := some now } ∧
    (incrementDailyIdentificationCount now s uid).2 = .ok 1 ∧
    mapGet (incrementDailyIdentificationCount now s uid).1.users uid =
        some { user with dailyIdentificationsCount := some 1,
                         lastIdentificationDate := some now } := by
  refine ⟨?_, ?_, ?_, ?_⟩ <;>
    simp [checkDailyIdentificationLimit, incrementDailyIdentificationCount,
      resetDailyIdentificationCount, updateUserDaily, hu, hnew,
      mapGet_mapSet_self]

/-- Witness for C1 at a concrete premium user whose last identification
was on an earlier day. -/
def wD0 : JsDate := ⟨0, 0⟩

def wD1 : JsDate := ⟨1, 1000⟩

def wUserC1 : User :=
  { id := 1, username := "alice", subscriptionPlan := .premium,
    dailyIdentificationsCount := some 4, lastIdentificationDate := some wD0 }

def wStoreC1 : MemStorage :=
  { users := [(1, wUserC1)], identifications := [],
    identificationIdCounter := 1 }

theorem dailyLimit_newDay_behaves_as_zero_witness :
    (checkDailyIdentificationLimit wD1 wStoreC1 1).2 =
        .ok { withinLimit := true, current := 0, limit := 5 } ∧
    mapGet (checkDailyIdentificationLimit wD1 wStoreC1 1).1.users 1 =
        some { wUserC1 with dailyIdentificationsCount := some 0,
                            lastIdentificationDate := some wD1 } ∧
    (incrementDailyIdentificationCount wD1 wStoreC1 1).2 = .ok 1 ∧
    mapGet (incrementDailyIdentificationCount wD1 wStoreC1 1).1.users 1 =
        some { wUserC1 with dailyIdentificationsCount := some 1,
                            lastIdentificationDate := some wD1 } :=
  dailyLimit_newDay_behaves_as_zero wD1 wStoreC1 1 wUserC1 rfl rfl

/-! ### C2: N same-day increments count 1, 2, …, N -/

/-- A sequence of `incrementDailyIdentificationCount` calls for one user,
one per instant of the list, threading the storage state and collecting
each call's outcome. -/
def iterIncrement (uid : Int) : List JsDate → MemStorage →
    MemStorage × List (Except String Int)
  | [], s => (s, [])
  | t :: ts, s =>
      let step := incrementDailyIdentificationCount t s uid
      let rest := iterIncrement uid ts step.1
      (rest.1, step.2 :: rest.2)

/-- Steady-state lemma for C2: once the stored date is on day `d` and the
counter holds `j`, a further run of same-day instants returns
`j + 1, …, j + n` and leaves the counter at `j + n`. -/
theorem iterIncrement_sameDay (uid : Int) (d : Int) (ds : List JsDate)
    (hds : ∀ t ∈ ds, t.day = d) (j : Int) (s : MemStorage) (user : User)
    (hu : mapGet s.users uid = some user)
    (hcount : user.dailyIdentificationsCount = some j)
    (hlast : ∃ t0, user.lastIdentificationDate = some t0 ∧ t0.day = d) :
    (iterIncrement uid ds s).2 =
        (List.range ds.length).map (fun k => .ok (j + k + 1)) ∧
    ∃ user', mapGet (iterIncrement uid ds s).1.users uid = some user' ∧
      user'.dailyIdentificationsCount = some (j + ds.length) ∧
      ∃ t1, user'.lastIdentificationDate = some t1 ∧ t1.day = d := by
  induction ds generalizing j s user with
  | nil =>
      refine ⟨rfl, user, hu, ?_, hlast⟩
      simpa using hcount
  | cons t ts ih =>
      obtain ⟨t0, hl0, hd0⟩ := hlast
      have htd : t.day = d := hds t (List.mem_cons_self t ts)
      have hnotnew : isNewDay t user.lastIdentificationDate = false := by
        simp [isNewDay, hl0, htd, hd0]
      have hstep : incrementDailyIdentificationCount t s uid =
          ({ s with users := (mapSet s.users uid
               { user with dailyIdentificationsCount := some (j + 1),
                           lastIdentificationDate := some t }) },
           .ok (j + 1)) := by
        simp [incrementDailyIdentificationCount, hu, hnotnew, hcount,
          jsOrZero, updateUserDaily]
      have hds' : ∀ x ∈ ts, x.day = d := fun x hx => hds x (List.mem_cons_of_mem t hx)
      have ihres := ih hds' (j + 1)
        (MemStorage.mk (mapSet s.users uid
            { user with dailyIdentificationsCount := some (j + 1),
                        lastIdentificationDate := some t })
          s.identifications s.identificationIdCounter)
        { user with dailyIdentificationsCount := some (j + 1),
                    lastIdentificationDate := some t }
        (mapGet_mapSet_self ..) rfl ⟨t, rfl, htd⟩
      constructor
      · simp only [iterIncrement, hstep, ihres.1, List.length_cons,
          List.range_succ_eq_map, List.map_cons, List.map_map]
        refine congrArg₂ _ (by norm_num) (List.map_congr_left ?_)
        intro k _
        simp only [Function.comp_apply]
        congr 1
        push_cast
        ring
      · obtain ⟨user', h1, h2, h3⟩ := ihres.2
        refine ⟨user', ?_, ?_, h3⟩
        · simpa only [iterIncrement, hstep] using h1
        · rw [h2]
          congr 1
          push_cast [List.length_cons]
          ring

/-- C2: starting from a state whose last-identification date is not the
day of the calls (or is null), N `incrementDailyCount` calls within one
calendar day return 1, 2, …, N in order and leave the stored counter at
N. -/
theorem incrementDailyCount_sequence (uid : Int) (d : Int)
    (ds : List JsDate) (hne : ds ≠ []) (hds : ∀ t ∈ ds, t.day = d)
    (s : MemStorage) (user : User)
    (hu : mapGet s.users uid = some user)
    (hlast : ∀ t0, user.lastIdentificationDate = some t0 → t0.day ≠ d) :
    (iterIncrement uid ds s).2 =
        (List.range ds.length).map (fun k => .ok ((k : Int) + 1)) ∧
    ∃ user', mapGet (iterIncrement uid ds s).1.users uid = some user' ∧
      user'.dailyIdentificationsCount = some (ds.length : Int) := by
  cases ds with
  | nil => exact absurd rfl hne
  | cons t ts =>
      have htd : t.day = d := hds t (List.mem_cons_self t ts)
      have hnew : isNewDay t user.lastIdentificationDate = true := by
        cases hl : user.lastIdentificationDate with
        | none => simp [isNewDay]
        | some t0 =>
            have := hlast t0 hl
            simp [isNewDay, htd]
            omega
      have hstep : incrementDailyIdentificationCount t s uid =
          ({ s with users := (mapSet s.users uid
               { user with dailyIdentificationsCount := some 1,
                           lastIdentificationDate := some t }) },
           .ok 1) := by
        simp [incrementDailyIdentificationCount, hu, hnew, updateUserDaily]
      have hds' : ∀ x ∈ ts, x.day = d := fun x hx => hds x (List.mem_cons_of_mem t hx)
      have ihres := iterIncrement_sameDay uid d ts hds' 1
        (MemStorage.mk (mapSet s.users uid
            { user with dailyIdentificationsCount := some 1,
                        lastIdentificationDate := some t })
          s.identifications s.identificationIdCounter)
        { user with dailyIdentificationsCount := some 1,
                    lastIdentificationDate := some t }
        (mapGet_mapSet_self ..) rfl ⟨t, rfl, htd⟩
      constructor
      · simp only [iterIncrement, hstep, ihres.1, List.length_cons,
          List.range_succ_eq_map, List.map_cons, List.map_map]
        refine congrArg₂ _ (by norm_num) (List.map_congr_left ?_)
        intro k _
        simp only [Function.comp_apply]
        congr 1
        push_cast
        ring
      · obtain ⟨user', h1, h2, h3⟩ := ihres.2
        refine ⟨user', ?_, ?_⟩
        · simpa only [iterIncrement, hstep] using h1
        · rw [h2]
          congr 1
          push_cast [List.length_cons]
          ring

/-- Witness inputs for C2: three calls on day 5 for a free-plan user who
has never identified before. -/
def wUserC2 : User :=
  { id := 1, username := "bob", subscriptionPlan := .free,
    dailyIdentificationsCount := some 0, lastIdentificationDate := none }

def wStoreC2 : MemStorage :=
  { users := [(1, wUserC2)], identifications := [],
    identificationIdCounter := 1 }

def wDsC2 : List JsDate := [⟨5, 10⟩, ⟨5, 20⟩, ⟨5, 30⟩]

theorem incrementDailyCount_sequence_witness :
    (iterIncrement 1 wDsC2 wStoreC2).2 = [.ok 1, .ok 2, .ok 3] ∧
    ∃ user', mapGet (iterIncrement 1 wDsC2 wStoreC2).1.users 1 = some user' ∧
      user'.dailyIdentificationsCount = some 3 := by
  have h := incrementDailyCount_sequence 1 5 wDsC2 (by decide)
    (by decide) wStoreC2 wUserC2 rfl (by simp [wUserC2])
  obtain ⟨h1, user', h2, h3⟩ := h
  refine ⟨?_, user', h2, by simpa using h3⟩
  rw [h1]
  rfl

/-! ### C3: what `checkDailyLimit` reports -/

/-- C3 counterexample: a premium user checked after a day rollover.  The
claim says the reported limit reflects the user's plan on every path
(premium serialized as -1), but the rollover path returns the literal
`{ withinLimit: true, current: 0, limit: 5 }` regardless of plan. -/
def cUserC3 : User :=
  { id := 1, username := "carol", subscriptionPlan := .premium,
    dailyIdentificationsCount := some 2, lastIdentificationDate := some ⟨0, 0⟩ }

def cStoreC3 : MemStorage :=
  { users := [(1, cUserC3)], identifications := [],
    identificationIdCounter := 1 }

/-- C3 counterexample: for the premium user `cUserC3` whose last
identification was on day 0, a check on day 1 takes the rollover path and
reports `limit = 5`, not the premium sentinel -1. -/
theorem checkDailyLimit_premium_rollover_counterexample :
    cUserC3.subscriptionPlan = .premium ∧
    isNewDay ⟨1, 50⟩ cUserC3.lastIdentificationDate = true ∧
    (checkDailyIdentificationLimit ⟨1, 50⟩ cStoreC3 1).2 =
        .ok { withinLimit := true, current := 0, limit := 5 } ∧
    (5 : Int) ≠ -1 :=
  ⟨rfl, rfl, rfl, by decide⟩

/-- C3 amended: for an existing user, `checkDailyLimit` reports the
current count and the plan's per-day limit (with the premium plan's
unbounded quota serialized as -1) only on the path where the stored date
is still "today"; on the rollover path it reports the literal
`{ withinLimit: true, current: 0, limit: 5 }` regardless of plan. -/
theorem checkDailyLimit_reports (now : JsDate) (s : MemStorage) (uid : Int)
    (user : User) (hu : mapGet s.users uid = some user) :
    (isNewDay now user.lastIdentificationDate = true →
      (checkDailyIdentificationLimit now s uid).2 =
          .ok { withinLimit := true, current := 0, limit := 5 }) ∧
    (isNewDay now user.lastIdentificationDate = false →
      (checkDailyIdentificationLimit now s uid).2 =
          .ok { withinLimit :=
                  (subscriptionLimitsPerDay user.subscriptionPlan).ltNum
                    (jsOrZero user.dailyIdentificationsCount),
                current := jsOrZero user.dailyIdentificationsCount,
                limit :=
                  (subscriptionLimitsPerDay user.subscriptionPlan).serialize }) := by
  have hplan : (if user.subscriptionPlan = .premium then PlanLimit.inf
      else PlanLimit.fin 5) = subscriptionLimitsPerDay user.subscriptionPlan := by
    cases user.subscriptionPlan <;> simp [subscriptionLimitsPerDay]
  constructor
  · intro hnew
    simp [checkDailyIdentificationLimit, hu, hnew,
      resetDailyIdentificationCount, updateUserDaily]
  · intro hold
    simp only [checkDailyIdentificationLimit, hu, hold, Bool.false_eq_true,
      if_false, hplan]

/-- Witness for C3 at a premium user on the same-day path: the limit is
serialized as -1 and four identifications are within it. -/
def wUserC3 : User :=
  { id := 1, username := "dave", subscriptionPlan := .premium,
    dailyIdentificationsCount := some 4, lastIdentificationDate := some ⟨7, 100⟩ }

def wStoreC3 : MemStorage :=
  { users := [(1, wUserC3)], identifications := [],
    identificationIdCounter := 1 }

theorem checkDailyLimit_reports_witness :
    (checkDailyIdentificationLimit ⟨7, 200⟩ wStoreC3 1).2 =
        .ok { withinLimit := true, current := 4, limit := -1 } := by
  have h := (checkDailyLimit_reports ⟨7, 200⟩ wStoreC3 1 wUserC3 rfl).2 rfl
  simpa [wUserC3, subscriptionLimitsPerDay, PlanLimit.ltNum,
    PlanLimit.serialize, jsOrZero] using h

/-! ### C7: plan-derived history cap -/

/-- C7 amended: for an existing premium user, the plan-derived history
cap is the finite value 30 (`subscriptionLimitsHistory .premium`): a
recent-identifications query with caller-supplied limit `L ≥ 0` returns
`min (min L 30) (number of the user's records)` records, so it IS
truncated by the plan cap whenever more than 30 records match. -/
theorem getRecentIdentifications_premium_cap (s : MemStorage) (uid : Int)
    (user : User) (L : Int) (hu : mapGet s.users uid = some user)
    (hplan : user.subscriptionPlan = .premium) (hL : 0 ≤ L) :
    (getRecentIdentifications s (some uid) (some L)).length =
      min (min L (subscriptionLimitsHistory .premium)).toNat
        ((mapValues s.identifications).filter
          (fun i => i.userId = some uid)).length := by
  have hmin : ¬ (min L (30 : Int) < 0) := by omega
  simp only [getRecentIdentifications, hu, hplan, if_true, Option.getD,
    subscriptionLimitsHistory, jsSlice, hmin, if_false,
    List.length_take, length_sortByTimeDesc]

/-- Witness inputs for C7: a premium user with 31 stored identifications
and a caller limit of 50. -/
def wUserC7 : User :=
  { id := 1, username := "erin", subscriptionPlan := .premium,
    dailyIdentificationsCount := some 0, lastIdentificationDate := none }

def mkIdentRecord (k : Int) : BirdIdentification :=
  { id := k, userId := some 1, imageUrl := "", result := "",
    identifiedAt := ⟨0, k⟩ }

def wIdentsC7 : JsMap BirdIdentification :=
  (List.range 31).map (fun k => ((k : Int), mkIdentRecord (k : Int)))

def wStoreC7 : MemStorage :=
  { users := [(1, wUserC7)], identifications := wIdentsC7,
    identificationIdCounter := 32 }

theorem getRecentIdentifications_premium_cap_witness :
    (getRecentIdentifications wStoreC7 (some 1) (some 50)).length = 30 := by
  have h := getRecentIdentifications_premium_cap wStoreC7 1 wUserC7 50
    rfl rfl (by decide)
  rw [h]
  decide

/-- C7 counterexample: the premium user `wUserC7` owns 31 stored
identifications; a query with the explicit caller limit 50 returns only
30 of them — truncated by the finite plan-based history cap, below both
the caller limit and the record count.  The claim's "never truncated by
a finite plan-based history limit" is false. -/
theorem getRecent_premium_truncated_counterexample :
    wUserC7.subscriptionPlan = .premium ∧
    ((mapValues wStoreC7.identifications).filter
        (fun i => i.userId = some 1)).length = 31 ∧
    (getRecentIdentifications wStoreC7 (some 1) (some 50)).length = 30 ∧
    (30 : Nat) < 31 ∧ (30 : Nat) < 50 := by
  refine ⟨rfl, by decide, ?_, by decide, by decide⟩
  decide

/-! ### C4: confidence is rounded then clamped into [1, 100] -/

/-- C4: for every input the normalizer accepts, the output confidence of
the primary bird, and of each similar bird whose input confidence is
present, is the input confidence rounded to the nearest integer
(JavaScript `Math.round`) and clamped into [1, 100]. -/
theorem normalizer_clamps_confidence (orig : String) (p : ParsedResponse)
    (r : IdentificationResult) (h : normalizeParsed orig p = .ok r) :
    (∀ mb, p.mainBird = some mb → ∀ q : Rat, mb.confidence = some q →
        r.mainBird.confidence = min 100 (max 1 (jsRound q))) ∧
    (∀ bs, p.similarBirds = some bs →
        r.similarBirds.length = bs.length ∧
        ∀ (i : Nat) (b : ParsedSimilarBird) (q : Rat),
          bs.get? i = some b → b.confidence = some q →
          ∃ sb, r.similarBirds.get? i = some sb ∧
            sb.confidence = min 100 (max 1 (jsRound q))) := by
  obtain ⟨he, mb0, hmb0, hn0, hr⟩ := normalizeParsed_ok_inv orig p r h
  subst hr
  constructor
  · intro mb hmb q hq
    rw [hmb0] at hmb
    injection hmb with hmb
    subst hmb
    simp only [buildBird, hq, normConfidence_some]
  · intro bs hbs
    simp only [hbs]
    refine ⟨by simp, ?_⟩
    intro i b q hb hq
    refine ⟨buildSimilarBird b, ?_, ?_⟩
    · rw [List.get?_map, hb]
      rfl
    · simp only [buildSimilarBird, hq, normConfidence_some]

/-- Witness inputs for C4: a primary-bird confidence of 150 clamps to
100, and one of -5 clamps to 1. -/
def mbC4a : ParsedBird :=
  { name := some "Robin", scientificName := none, confidence := some 150,
    description := none, features := none, habitat := none, sound := none,
    physicalCharacteristics := none, habitatAndRange := none,
    migrationPatterns := none, seasonalVariations := none, sounds := none }

def pC4a : ParsedResponse :=
  { error := false, message := none, mainBird := some mbC4a,
    similarBirds := none }

def mbC4b : ParsedBird :=
  { mbC4a with confidence := some (-5) }

def pC4b : ParsedResponse :=
  { error := false, message := none, mainBird := some mbC4b,
    similarBirds := none }

theorem normalizer_clamps_confidence_witness :
    (∃ r, normalizeParsed "" pC4a = .ok r ∧ r.mainBird.confidence = 100) ∧
    (∃ r, normalizeParsed "" pC4b = .ok r ∧ r.mainBird.confidence = 1) := by
  constructor
  · obtain ⟨r, hr⟩ : ∃ r, normalizeParsed "" pC4a = .ok r := ⟨_, by rfl⟩
    have h := (normalizer_clamps_confidence "" pC4a r hr).1 mbC4a rfl 150 rfl
    refine ⟨r, hr, ?_⟩
    rw [h, show jsRound 150 = 150 by rw [show ((150 : Rat)) = ((150 : Int) : Rat) by norm_num, jsRound_intCast]]
    norm_num
  · obtain ⟨r, hr⟩ : ∃ r, normalizeParsed "" pC4b = .ok r := ⟨_, by rfl⟩
    have h := (normalizer_clamps_confidence "" pC4b r hr).1 mbC4b rfl (-5) rfl
    refine ⟨r, hr, ?_⟩
    rw [h, show jsRound (-5) = -5 by rw [show ((-5 : Rat)) = ((-5 : Int) : Rat) by norm_num, jsRound_intCast]]
    norm_num

/-! ### C5: the error-flag message is constructed but then swallowed -/

/-- C5 failing input: an explicit error response with a provided
message. -/
def pC5 : ParsedResponse :=
  { error := true, message := some "No bird visible in the image",
    mainBird := none, similarBirds := none }

/-- C5 (code bug): on an input whose error flag is set, the normalization
step raises `IdentificationFailed` carrying the provided message, but the
enclosing `catch (jsonError)` block of `identifyBirdWithGemini` catches
that very throw and replaces it with the generic JSON-parse failure
message — so the caller never sees the provided message.  No result is
produced either way. -/
theorem errorFlag_message_swallowed :
    normalizeParsed "" pC5 =
        .error (.identificationFailed "No bird visible in the image") ∧
    identifyBirdNormalize "" pC5 =
        .error "Failed to parse identification result from Gemini API" ∧
    "Failed to parse identification result from Gemini API" ≠
        "No bird visible in the image" :=
  ⟨rfl, rfl, by decide⟩

/-! ### C6: a missing primary-bird name fails with InvalidResponseShape -/

/-- C6: every input without an error flag whose primary bird entry is
absent, or lacks a name, fails the normalization step with
`InvalidResponseShape` (the missing-mainBird throw site), and the
function as a whole produces no identification result. -/
theorem missing_mainBird_invalid_shape (orig : String) (p : ParsedResponse)
    (herr : p.error = false)
    (hmb : p.mainBird = none ∨ ∃ mb, p.mainBird = some mb ∧ mb.name = none) :
    normalizeParsed orig p =
        .error (.invalidResponseShape
          "The API response did not contain valid bird identification data") ∧
    identifyBirdNormalize orig p =
        .error "Failed to parse identification result from Gemini API" := by
  have h1 : normalizeParsed orig p =
      .error (.invalidResponseShape
        "The API response did not contain valid bird identification data") := by
    rcases hmb with hnone | ⟨mb, hsome, hname⟩
    · simp [normalizeParsed, herr, hnone]
    · simp [normalizeParsed, herr, hsome, jsStrTruthy, hname]
  exact ⟨h1, by simp [identifyBirdNormalize, h1]⟩

/-- Witness inputs for C6: a response with no `mainBird` at all, and one
whose `mainBird` has no name. -/
def pC6a : ParsedResponse :=
  { error := false, message := none, mainBird := none, similarBirds := none }

def mbC6 : ParsedBird :=
  { name := none, scientificName := some "Turdus migratorius",
    confidence := some 80, description := none, features := none,
    habitat := none, sound := none, physicalCharacteristics := none,
    habitatAndRange := none, migrationPatterns := none,
    seasonalVariations := none, sounds := none }

def pC6b : ParsedResponse :=
  { error := false, message := none, mainBird := some mbC6,
    similarBirds := none }

theorem missing_mainBird_invalid_shape_witness :
    (normalizeParsed "img" pC6a =
        .error (.invalidResponseShape
          "The API response did not contain valid bird identification data") ∧
     identifyBirdNormalize "img" pC6a =
        .error "Failed to parse identification result from Gemini API") ∧
    (normalizeParsed "img" pC6b =
        .error (.invalidResponseShape
          "The API response did not contain valid bird identification data") ∧
     identifyBirdNormalize "img" pC6b =
        .error "Failed to parse identification result from Gemini API") :=
  ⟨missing_mainBird_invalid_shape "img" pC6a rfl (Or.inl rfl),
   missing_mainBird_invalid_shape "img" pC6b rfl (Or.inr ⟨mbC6, rfl, rfl⟩)⟩

/-! ### C8: the features list after normalization -/

/-- C8 amended: the normalizer replaces the primary-bird features field
by the non-empty default `["No features available"]` only when the input
field is absent (or otherwise falsy); a present list — truthy in
JavaScript even when empty — is passed through unchanged, so an input
empty list yields an output with zero features (and `birdSchema`'s
`z.array(z.string())` accepts it). -/
theorem features_default_only_when_absent (orig : String)
    (p : ParsedResponse) (r : IdentificationResult) (mb : ParsedBird)
    (h : normalizeParsed orig p = .ok r) (hmb : p.mainBird = some mb) :
    (mb.features = none → r.mainBird.features = ["No features available"]) ∧
    (∀ fs, mb.features = some fs → r.mainBird.features = fs) := by
  obtain ⟨he, mb0, hmb0, hn0, hr⟩ := normalizeParsed_ok_inv orig p r h
  rw [hmb0] at hmb
  injection hmb with hmb
  subst hmb
  subst hr
  constructor
  · intro hfs
    simp only [buildBird, jsOrFeatures, hfs]
  · intro fs hfs
    simp only [buildBird, jsOrFeatures, hfs]

/-- C8 counterexample input: a valid primary bird whose `features` field
is explicitly the empty list. -/
def mbC8 : ParsedBird :=
  { name := some "Robin", scientificName := none, confidence := some 90,
    description := none, features := some [], habitat := none,
    sound := none, physicalCharacteristics := none, habitatAndRange := none,
    migrationPatterns := none, seasonalVariations := none, sounds := none }

def pC8 : ParsedResponse :=
  { error := false, message := none, mainBird := some mbC8,
    similarBirds := none }

/-- C8 counterexample: the normalizer accepts `pC8`, whose features field
is the (truthy) empty list, and the output features list is empty — the
claim that the output features list is non-empty for every accepted
input, including an empty input list, is false. -/
theorem empty_features_passthrough_counterexample :
    mbC8.features = some [] ∧
    (normalizeParsed "" pC8).toOption.map (fun r => r.mainBird.features) =
      some [] := by
  refine ⟨rfl, ?_⟩
  simp [normalizeParsed, pC8, mbC8, jsStrTruthy, buildBird, jsOrFeatures,
    Except.toOption]

/-- Witness input for C8's amended theorem: a primary bird with no
features field at all receives the default singleton list. -/
def mbC8w : ParsedBird :=
  { mbC8 with features := none }

def pC8w : ParsedResponse :=
  { error := false, message := none, mainBird := some mbC8w,
    similarBirds := none }

theorem features_default_only_when_absent_witness :
    ∃ r, normalizeParsed "" pC8w = .ok r ∧
      r.mainBird.features = ["No features available"] := by
  obtain ⟨r, hr⟩ : ∃ r, normalizeParsed "" pC8w = .ok r := ⟨_, by rfl⟩
  exact ⟨r, hr,
    (features_default_only_when_absent "" pC8w r mbC8w hr rfl).1 rfl⟩

/-! ### C9: confidence normalization is idempotent -/

/-- Injection of a normalized similar bird back into the parsed input
shape, for re-normalization. -/
def similarBirdToParsed (b : SimilarBird) : ParsedSimilarBird :=
  { name := some b.name, scientificName := some b.scientificName,
    confidence := some (b.confidence : Rat) }

/-- Injection of a normalized primary bird back into the parsed input
shape. -/
def birdToParsed (b : Bird) : ParsedBird :=
  { name := some b.name, scientificName := some b.scientificName,
    confidence := some (b.confidence : Rat),
    description := some b.description, features := some b.features,
    habitat := some b.habitat, sound := some b.sound,
    physicalCharacteristics := b.physicalCharacteristics,
    habitatAndRange := b.habitatAndRange,
    migrationPatterns := b.migrationPatterns.map (fun mp =>
      { migratory := some mp.migratory,
        migrationSeason := mp.migrationSeason,
        migrationRoute := mp.migrationRoute,
        winteringGrounds := mp.winteringGrounds,
        breedingGrounds := mp.breedingGrounds }),
    seasonalVariations := b.seasonalVariations,
    sounds := b.sounds }

/-- Injection of a normalized identification result back into the parsed
input shape ("feeding the output back into the Normalizer"). -/
def resultToParsed (r : IdentificationResult) : ParsedResponse :=
  { error := false, message := none,
    mainBird := some (birdToParsed r.mainBird),
    similarBirds := some (r.similarBirds.map similarBirdToParsed) }

/-- Re-normalization preserves every confidence already in [1, 100]. -/
theorem renormalize_preserves (orig2 : String) (r : IdentificationResult)
    (hname : r.mainBird.name ≠ "")
    (hconf : 1 ≤ r.mainBird.confidence ∧ r.mainBird.confidence ≤ 100)
    (hsim : ∀ b ∈ r.similarBirds,
      1 ≤ b.confidence ∧ b.confidence ≤ 100) :
    ∃ r', normalizeParsed orig2 (resultToParsed r) = .ok r' ∧
      r'.mainBird.confidence = r.mainBird.confidence ∧
      r'.similarBirds.map (fun b => b.confidence) =
        r.similarBirds.map (fun b => b.confidence) := by
  have htr : jsStrTruthy (birdToParsed r.mainBird).name = true := by
    simp [birdToParsed, jsStrTruthy, hname]
  refine ⟨{ mainBird := buildBird (birdToParsed r.mainBird),
            similarBirds := (r.similarBirds.map similarBirdToParsed).map
              buildSimilarBird,
            originalImage := orig2 }, ?_, ?_, ?_⟩
  · simp only [normalizeParsed, resultToParsed, htr, if_true,
      Bool.false_eq_true, if_false]
  · show (buildBird (birdToParsed r.mainBird)).confidence = _
    simp only [buildBird, birdToParsed]
    exact normConfidence_int_fixed _ hconf.1 hconf.2
  · show ((r.similarBirds.map similarBirdToParsed).map
        buildSimilarBird).map (fun b => b.confidence) = _
    rw [List.map_map, List.map_map]
    refine List.map_congr_left ?_
    intro b hb
    show (buildSimilarBird (similarBirdToParsed b)).confidence = _
    simp only [buildSimilarBird, similarBirdToParsed]
    exact normConfidence_int_fixed _ (hsim b hb).1 (hsim b hb).2

/-- C9: feeding a normalizer output back in as input succeeds and leaves
the confidence of the primary bird and of every similar bird unchanged
(every already-normalized confidence is an integer in [1, 100], and such
values are fixed points of round-then-clamp). -/
theorem normalize_confidence_idempotent (orig orig2 : String)
    (p : ParsedResponse) (r : IdentificationResult)
    (h : normalizeParsed orig p = .ok r) :
    ∃ r', normalizeParsed orig2 (resultToParsed r) = .ok r' ∧
      r'.mainBird.confidence = r.mainBird.confidence ∧
      r'.similarBirds.map (fun b => b.confidence) =
        r.similarBirds.map (fun b => b.confidence) := by
  obtain ⟨he, mb, hmb, hn, hr⟩ := normalizeParsed_ok_inv orig p r h
  subst hr
  apply renormalize_preserves
  · show jsOrString mb.name "Unknown Bird" ≠ ""
    exact jsOrString_ne_empty _ _ (by decide)
  · exact normConfidence_range _
  · intro b hb
    cases hsb : p.similarBirds with
    | none =>
        rw [hsb] at hb
        simp at hb
    | some bs =>
        rw [hsb] at hb
        simp only [List.mem_map] at hb
        obtain ⟨pb, _, hpb⟩ := hb
        rw [← hpb]
        exact normConfidence_range _

/-- Witness input for C9: a fractional primary confidence and one similar
bird. -/
def pC9 : ParsedResponse :=
  { error := false, message := none,
    mainBird := some
      { name := some "Wren", scientificName := none,
        confidence := some (175 / 2), description := none, features := none,
        habitat := none, sound := none, physicalCharacteristics := none,
        habitatAndRange := none, migrationPatterns := none,
        seasonalVariations := none, sounds := none },
    similarBirds := some
      [{ name := some "House Wren", scientificName := none,
         confidence := some 42 }] }

theorem normalize_confidence_idempotent_witness :
    ∃ r r', normalizeParsed "" pC9 = .ok r ∧
      normalizeParsed "x" (resultToParsed r) = .ok r' ∧
      r'.mainBird.confidence = r.mainBird.confidence ∧
      r'.similarBirds.map (fun b => b.confidence) =
        r.similarBirds.map (fun b => b.confidence) := by
  obtain ⟨r, hr⟩ : ∃ r, normalizeParsed "" pC9 = .ok r := ⟨_, by rfl⟩
  obtain ⟨r', h1, h2, h3⟩ :=
    normalize_confidence_idempotent "" "x" pC9 r hr
  exact ⟨r, r', hr, h1, h2, h3⟩

/-! ### C10: createIdentification and the owner's daily counter -/

theorem jsIdOrNull_of_falsy (v : Option Int) (h : jsIdTruthy v = false) :
    jsIdOrNull v = none := by
  cases v with
  | none => rfl
  | some n =>
      have hz : n = 0 := by
        by_contra hc
        simp [jsIdTruthy, hc] at h
      simp [jsIdOrNull, hz]

/-- C10 amended: `createIdentification` with a truthy owning userId
(non-null and non-zero) increments that user's daily identification
count as part of the creation, before the record is stored; if that user
does not exist it throws NotFound and the identifications map is
unchanged (only the id counter has advanced).  With a null — or zero,
which JavaScript truthiness treats like null — userId, the record is
stored with a null owner and no user's counter changes. -/
theorem createIdentification_behavior (now : JsDate) (s : MemStorage)
    (ins : InsertBirdIdentification) :
    (jsIdTruthy ins.userId = false →
        (createIdentification now s ins).1.users = s.users ∧
        (createIdentification now s ins).2 = .ok
          { id := s.identificationIdCounter, userId := none,
            imageUrl := ins.imageUrl, result := ins.result,
            identifiedAt := now } ∧
        (createIdentification now s ins).1.identifications =
          mapSet s.identifications s.identificationIdCounter
            { id := s.identificationIdCounter, userId := none,
              imageUrl := ins.imageUrl, result := ins.result,
              identifiedAt := now }) ∧
    (∀ u, ins.userId = some u → u ≠ 0 →
        (mapGet s.users u = none →
            (createIdentification now s ins).2 =
              .error ("User with id " ++ toString u ++ " not found") ∧
            (createIdentification now s ins).1.identifications =
              s.identifications) ∧
        (∀ user, mapGet s.users u = some user →
            (createIdentification now s ins).2 = .ok
              { id := s.identificationIdCounter, userId := some u,
                imageUrl := ins.imageUrl, result := ins.result,
                identifiedAt := now } ∧
            mapGet (createIdentification now s ins).1.users u =
              some { user with
                dailyIdentificationsCount := some
                  (if isNewDay now user.lastIdentificationDate then 1
                   else jsOrZero user.dailyIdentificationsCount + 1),
                lastIdentificationDate := some now } ∧
            (createIdentification now s ins).1.identifications =
              mapSet s.identifications s.identificationIdCounter
                { id := s.identificationIdCounter, userId := some u,
                  imageUrl := ins.imageUrl, result := ins.result,
                  identifiedAt := now })) := by
  constructor
  · intro hf
    have hnull : jsIdOrNull ins.userId = none := jsIdOrNull_of_falsy _ hf
    refine ⟨?_, ?_, ?_⟩ <;>
      simp [createIdentification, hf, hnull]
  · intro u hu hne
    have ht : jsIdTruthy (some u) = true := by simp [jsIdTruthy, hne]
    have hnull : jsIdOrNull (some u) = some u := by
      simp [jsIdOrNull, hne]
    constructor
    · intro hnone
      have hstep : incrementDailyIdentificationCount now
          { s with identificationIdCounter := s.identificationIdCounter + 1 }
          u =
          ({ s with identificationIdCounter := s.identificationIdCounter + 1 },
           .error ("User with id " ++ toString u ++ " not found")) := by
        simp [incrementDailyIdentificationCount, hnone]
      refine ⟨?_, ?_⟩ <;>
        simp [createIdentification, hu, ht, hstep]
    · intro user hsome
      have hstep : incrementDailyIdentificationCount now
          { s with identificationIdCounter := s.identificationIdCounter + 1 }
          u =
          ({ s with identificationIdCounter := s.identificationIdCounter + 1,
                    users := (mapSet s.users u
              { user with
                dailyIdentificationsCount := some
                  (if isNewDay now user.lastIdentificationDate then 1
                   else jsOrZero user.dailyIdentificationsCount + 1),
                lastIdentificationDate := some now }) },
           .ok (if isNewDay now user.lastIdentificationDate then 1
                else jsOrZero user.dailyIdentificationsCount + 1)) := by
        by_cases hnd : isNewDay now user.lastIdentificationDate <;>
          simp [incrementDailyIdentificationCount, hsome, updateUserDaily, hnd]
      refine ⟨?_, ?_, ?_⟩ <;>
        simp [createIdentification, hu, ht, hstep, hnull, mapGet_mapSet_self]

/-- C10 counterexample input: a creation request whose owning userId is
the non-null value 0, against a storage with no users at all. -/
def sC10 : MemStorage :=
  { users := [], identifications := [], identificationIdCounter := 1 }

def insC10 : InsertBirdIdentification :=
  { userId := some 0, imageUrl := "img", result := "res" }

/-- C10 counterexample: userId 0 is non-null and user 0 does not exist,
yet `createIdentification` does not throw NotFound — it stores the
record (with the owner collapsed to null, since JavaScript
`if (insertIdentification.userId)` treats 0 as falsy). -/
theorem createIdentification_zero_userId_counterexample :
    insC10.userId = some 0 ∧ insC10.userId ≠ none ∧
    mapGet sC10.users 0 = none ∧
    (createIdentification ⟨3, 30⟩ sC10 insC10).2 = .ok
      { id := 1, userId := none, imageUrl := "img", result := "res",
        identifiedAt := ⟨3, 30⟩ } ∧
    (createIdentification ⟨3, 30⟩ sC10 insC10).1.identifications =
      [(1, { id := 1, userId := none, imageUrl := "img", result := "res",
             identifiedAt := ⟨3, 30⟩ })] :=
  ⟨rfl, by decide, rfl, rfl, rfl⟩

/-- Witness inputs for C10's amended theorem: a same-day creation for an
existing free-plan user with two identifications so far. -/
def wUserC10 : User :=
  { id := 1, username := "fay", subscriptionPlan := .free,
    dailyIdentificationsCount := some 2,
    lastIdentificationDate := some ⟨3, 10⟩ }

def wStoreC10 : MemStorage :=
  { users := [(1, wUserC10)], identifications := [],
    identificationIdCounter := 5 }

def wInsC10 : InsertBirdIdentification :=
  { userId := some 1, imageUrl := "i", result := "r" }

theorem createIdentification_behavior_witness :
    (createIdentification ⟨3, 99⟩ wStoreC10 wInsC10).2 = .ok
      { id := 5, userId := some 1, imageUrl := "i", result := "r",
        identifiedAt := ⟨3, 99⟩ } ∧
    mapGet (createIdentification ⟨3, 99⟩ wStoreC10 wInsC10).1.users 1 =
      some { wUserC10 with dailyIdentificationsCount := some 3,
                           lastIdentificationDate := some ⟨3, 99⟩ } := by
  have h := ((createIdentification_behavior ⟨3, 99⟩ wStoreC10 wInsC10).2
    1 rfl (by decide)).2 wUserC10 rfl
  refine ⟨h.1, ?_⟩
  have h2 := h.2.1
  simpa [wUserC10, isNewDay, jsOrZero] using h2

end BirdApp
